import Mathlib

/-!
# Call session controller: three front-end variants

A shallow embedding of the three scripts of the repository

* `src/main/resources/app.js`          (namespace `App`)
* `src/main/resources/static/app.js`   (namespace `StaticApp`)
* `target/classes/static/webrtc.js`    (namespace `Webrtc`)

Each script keeps one module-level variable `device`, fetches a credential from
`/token`, constructs an SDK device with it, registers observers and connects.

The browser and the SDK are external.  Their calls are recorded as effects in a
trace, in program order.  The outcome of `fetch('/token')` followed by
`.json()` is an input of the model (`FetchOutcome`), and so is the way the SDK
constructor call ends (`ConstructorOutcome`): the scripts hand it the credential
unchecked, and it is the SDK that returns a device or throws.  The calls `.on`,
`.connect` and `.disconnectAll` on a device are recorded and taken to return.
An `async` function is split at its first `await` into the synchronous part
(`...Begin`) and the continuation (`...Resume`).
-/

namespace CallSession

/-! ## Values and effects -/

/-- A JavaScript value as far as the scripts inspect it: the result of
`response.json()` and the result of reading a property of it.  The field list of
`obj` is the parsed object, looked up by key.  A number is only carried along,
never computed with. -/
inductive JSVal where
  | undefined : JSVal
  | null : JSVal
  | bool (b : Bool) : JSVal
  | num (n : Int) : JSVal
  | str (s : String) : JSVal
  | arr (items : List JSVal) : JSVal
  | obj (fields : List (String × JSVal)) : JSVal

/-- Identity of an SDK device object: the n-th object made by `new`. -/
abbrev Handle := Nat

/-- The console method used by a diagnostic. -/
inductive LogLevel where
  | log : LogLevel
  | error : LogLevel

/-- An observer callback as written in the scripts: `() => console.log(msg)` or
`e => console.error(msg, e)`. -/
structure Observer where
  level : LogLevel
  message : String
  passesArgument : Bool

/-- The options object literal given to the device constructor; `none` is a key
that the literal does not have. -/
structure DeviceOptions where
  codecPreferences : List String
  fakeLocalDTMF : Option Bool
  enableRingingState : Option Bool

/-- One externally visible operation.  A constructor call that returned the device
`h` is `construct h`; a constructor call that threw is `constructThrew`. -/
inductive Effect where
  | log (level : LogLevel) (message : String) (args : List JSVal) : Effect
  | fetch (url : String) : Effect
  | construct (h : Handle) (credential : JSVal) (options : DeviceOptions) : Effect
  | on (h : Handle) (event : String) (observer : Observer) : Effect
  | connect (h : Handle) : Effect
  | disconnectAll (h : Handle) : Effect
  | constructThrew (credential : JSVal) (options : DeviceOptions) : Effect

/-- Why a handler run ended with a rejection. -/
inductive Failure where
  | fetchRejected : Failure
  | jsonRejected : Failure
  | typeError : Failure
  | constructorThrew : Failure

/-- How `await fetch('/token')` followed by `await response.json()` settles. -/
inductive FetchOutcome where
  | networkReject : FetchOutcome
  | parseReject : FetchOutcome
  | body (data : JSVal) : FetchOutcome

/-- How the call `new Device(token, options)` ends.  The SDK decides. -/
inductive ConstructorOutcome where
  | returns : ConstructorOutcome
  | throws : ConstructorOutcome

/-- The mutable state: the module-level `let device` (`none` is `undefined`) and
the number of device objects constructed so far, which names the next one. -/
structure World where
  device : Option Handle
  allocated : Nat

/-- The state right after the script has loaded. -/
def World.fresh : World := ⟨none, 0⟩

/-- The result of running a handler: how it ended, the state it left and the
effects it performed, in order. -/
structure Run where
  result : Except Failure Unit
  world : World
  trace : List Effect

/-- Statement sequencing: the rest runs only if the first part did not throw. -/
def Run.andThen (r : Run) (k : World → Run) : Run :=
  match r.result with
  | .error e => ⟨.error e, r.world, r.trace⟩
  | .ok _ => ⟨(k r.world).result, (k r.world).world, r.trace ++ (k r.world).trace⟩

/-- Effects performed before a run. -/
def Run.after (pre : List Effect) (r : Run) : Run :=
  ⟨r.result, r.world, pre ++ r.trace⟩

/-- Property read `v.key` (also the destructuring `const { key } = v`): throws a
TypeError on `undefined` and `null`, reads the field of an object, and is
`undefined` where the key is missing and on every other value. -/
def getProp (v : JSVal) (key : String) : Except Failure JSVal :=
  match v with
  | .undefined => .error .typeError
  | .null => .error .typeError
  | .obj fields => .ok ((fields.lookup key).getD .undefined)
  | _ => .ok .undefined

/-- Calling an observer with argument `arg`: one console record, state untouched. -/
def Observer.invoke (o : Observer) (arg : JSVal) (w : World) : World × List Effect :=
  (w, [Effect.log o.level o.message (if o.passesArgument then [arg] else [])])

/-- The statements `device = new Device(token, options); device.on(...); ...`.
When the constructor throws, `device` is not assigned and no `.on` is reached. -/
def newDevice (c : ConstructorOutcome) (options : DeviceOptions)
    (observers : List (String × Observer)) (token : JSVal) (w : World) : Run :=
  match c with
  | .returns =>
    ⟨.ok (), ⟨some w.allocated, w.allocated + 1⟩,
      Effect.construct w.allocated token options ::
        observers.map (fun p => Effect.on w.allocated p.1 p.2)⟩
  | .throws => ⟨.error .constructorThrew, w, [Effect.constructThrew token options]⟩

/-- The statement `device.connect()`: a TypeError when `device` is undefined. -/
def deviceConnect (w : World) : Run :=
  match w.device with
  | none => ⟨.error .typeError, w, []⟩
  | some h => ⟨.ok (), w, [Effect.connect h]⟩

/-- The statements after `await fetch('/token')`: `.json()`, the read of `token`,
then `rest` applied to the token. -/
def withToken (o : FetchOutcome) (w : World) (rest : JSVal → World → Run) : Run :=
  match o with
  | .networkReject => ⟨.error .fetchRejected, w, []⟩
  | .parseReject => ⟨.error .jsonRejected, w, []⟩
  | .body data =>
    match getProp data "token" with
    | .error e => ⟨.error e, w, []⟩
    | .ok token => rest token w

/-! ## src/main/resources/app.js -/

namespace App

/-- Options literal of app.js lines 7-11. -/
def deviceOptions : DeviceOptions := ⟨["opus", "pcmu"], some true, some true⟩

/-- Observers of app.js lines 13-14. -/
def observers : List (String × Observer) :=
  [("ready", ⟨.log, "Twilio Device ready", false⟩),
   ("error", ⟨.error, "Twilio error", true⟩)]

/-- Function `init` up to its first await. -/
def initBegin : List Effect := [Effect.fetch "/token"]

/-- Function `init` from the settled fetch to its end. -/
def initResume (c : ConstructorOutcome) (o : FetchOutcome) (w : World) : Run :=
  withToken o w (newDevice c deviceOptions observers)

/-- The call handler after `await init()`: the rest of `init`, then `device.connect()`. -/
def callOnclickResume (c : ConstructorOutcome) (o : FetchOutcome) (w : World) : Run :=
  (initResume c o w).andThen deviceConnect

/-- Handler `call.onclick`, run to completion with fetch outcome `o` and
constructor outcome `c`. -/
def callOnclick (c : ConstructorOutcome) (o : FetchOutcome) (w : World) : Run :=
  match w.device with
  | none => (callOnclickResume c o w).after initBegin
  | some _ => deviceConnect w

/-- Handler `hangup.onclick`. -/
def hangupOnclick (w : World) : Run :=
  match w.device with
  | none => ⟨.ok (), w, []⟩
  | some h => ⟨.ok (), w, [Effect.disconnectAll h]⟩

end App

/-! ## src/main/resources/static/app.js -/

namespace StaticApp

/-- Options literal of static/app.js lines 14-18. -/
def deviceOptions : DeviceOptions := ⟨["opus", "pcmu"], some true, some true⟩

/-- Observers of static/app.js lines 20-23. -/
def observers : List (String × Observer) :=
  [("ready", ⟨.log, "✅ Twilio Device ready", false⟩),
   ("error", ⟨.error, "❌ Twilio error", true⟩),
   ("connect", ⟨.log, "📞 Call connected", false⟩),
   ("disconnect", ⟨.log, "📴 Call disconnected", false⟩)]

/-- Function `initDevice` up to its first await. -/
def initDeviceBegin : List Effect :=
  [Effect.log .log "▶ initDevice() called" [], Effect.fetch "/token"]

/-- Function `initDevice` from the settled fetch to its end. -/
def initDeviceResume (c : ConstructorOutcome) (o : FetchOutcome) (w : World) : Run :=
  withToken o w (newDevice c deviceOptions observers)

/-- The call handler after `await initDevice()`. -/
def callBtnOnclickResume (c : ConstructorOutcome) (o : FetchOutcome) (w : World) : Run :=
  (initDeviceResume c o w).andThen deviceConnect

/-- Handler `callBtn.onclick`, run to completion with fetch outcome `o` and
constructor outcome `c`. -/
def callBtnOnclick (c : ConstructorOutcome) (o : FetchOutcome) (w : World) : Run :=
  match w.device with
  | none => (callBtnOnclickResume c o w).after initDeviceBegin
  | some _ => deviceConnect w

/-- Handler `hangupBtn.onclick`. -/
def hangupBtnOnclick (w : World) : Run :=
  match w.device with
  | none => ⟨.ok (), w, []⟩
  | some h => ⟨.ok (), w, [Effect.disconnectAll h]⟩

end StaticApp

/-! ## target/classes/static/webrtc.js -/

namespace Webrtc

/-- Options literal of webrtc.js lines 13-16. -/
def deviceOptions : DeviceOptions := ⟨["opus", "pcmu"], none, some true⟩

/-- Observers of webrtc.js lines 18-21. -/
def observers : List (String × Observer) :=
  [("ready", ⟨.log, "✅ Device ready", false⟩),
   ("connect", ⟨.log, "📞 Call connected", false⟩),
   ("disconnect", ⟨.log, "📴 Call disconnected", false⟩),
   ("error", ⟨.error, "❌ Twilio error", true⟩)]

/-- Function `startCall` up to its first await. -/
def startCallBegin : List Effect :=
  [Effect.log .log "▶ startCall" [], Effect.fetch "/token"]

/-- Function `startCall` from the settled fetch to its end.  The last statement
awaits the promise of `device.connect()`, which is taken to settle normally. -/
def startCallResume (c : ConstructorOutcome) (o : FetchOutcome) (w : World) : Run :=
  withToken o w (fun token w1 =>
    ((newDevice c deviceOptions observers token w1).after
      [Effect.log .log "🔑 token received" []]).andThen deviceConnect)

/-- Function `startCall`, run to completion with fetch outcome `o` and constructor
outcome `c`. -/
def startCall (c : ConstructorOutcome) (o : FetchOutcome) (w : World) : Run :=
  (startCallResume c o w).after startCallBegin

/-- Function `endCall`. -/
def endCall (w : World) : Run :=
  match w.device with
  | none => ⟨.ok (), w, []⟩
  | some h => ⟨.ok (), w, [Effect.disconnectAll h, Effect.log .log "📴 Call ended" []]⟩

end Webrtc

/-! ## The controller contract over the three variants -/

/-- The three scripts. -/
inductive Variant where
  | app : Variant
  | staticApp : Variant
  | webrtc : Variant

/-- The start trigger of a variant, with constructor outcome `c`. -/
def startWith (c : ConstructorOutcome) (v : Variant) (o : FetchOutcome) (w : World) : Run :=
  match v with
  | .app => App.callOnclick c o w
  | .staticApp => StaticApp.callBtnOnclick c o w
  | .webrtc => Webrtc.startCall c o w

/-- The start trigger of a variant on a run in which the SDK constructor, if
called, returns a device. -/
def start (v : Variant) (o : FetchOutcome) (w : World) : Run :=
  startWith ConstructorOutcome.returns v o w

/-- The end trigger of a variant. -/
def endTrigger (v : Variant) (w : World) : Run :=
  match v with
  | .app => App.hangupOnclick w
  | .staticApp => StaticApp.hangupBtnOnclick w
  | .webrtc => Webrtc.endCall w

/-- The options literal a variant constructs its device with. -/
def deviceOptions (v : Variant) : DeviceOptions :=
  match v with
  | .app => App.deviceOptions
  | .staticApp => StaticApp.deviceOptions
  | .webrtc => Webrtc.deviceOptions

/-! ## Reading a trace -/

/-- The urls fetched, in order. -/
def fetches (tr : List Effect) : List String :=
  tr.filterMap (fun e => match e with
    | .fetch url => some url
    | _ => none)

/-- The handles constructed, in order. -/
def constructed (tr : List Effect) : List Handle :=
  tr.filterMap (fun e => match e with
    | .construct h _ _ => some h
    | _ => none)

/-- The credential arguments of the constructions, in order. -/
def credentials (tr : List Effect) : List JSVal :=
  tr.filterMap (fun e => match e with
    | .construct _ c _ => some c
    | _ => none)

/-- The credential arguments of all constructor calls, returned or thrown, in
order. -/
def constructorCalls (tr : List Effect) : List JSVal :=
  tr.filterMap (fun e => match e with
    | .construct _ c _ => some c
    | .constructThrew c _ => some c
    | _ => none)

/-- The options arguments of the constructions, in order. -/
def optionsUsed (tr : List Effect) : List DeviceOptions :=
  tr.filterMap (fun e => match e with
    | .construct _ _ o => some o
    | _ => none)

/-- The handles connect was issued on, in order. -/
def connects (tr : List Effect) : List Handle :=
  tr.filterMap (fun e => match e with
    | .connect h => some h
    | _ => none)

/-- The handles disconnectAll was issued on, in order. -/
def disconnects (tr : List Effect) : List Handle :=
  tr.filterMap (fun e => match e with
    | .disconnectAll h => some h
    | _ => none)

/-- The observer registrations, in order: handle and event name. -/
def registrations (tr : List Effect) : List (Handle × String) :=
  tr.filterMap (fun e => match e with
    | .on h ev _ => some (h, ev)
    | _ => none)

/-- The event names registered on `h` before the first connect on `h`. -/
def registeredBeforeConnect (h : Handle) : List Effect → List String
  | [] => []
  | .connect h2 :: rest => if h2 = h then [] else registeredBeforeConnect h rest
  | .on h2 ev _ :: rest =>
    if h2 = h then ev :: registeredBeforeConnect h rest else registeredBeforeConnect h rest
  | _ :: rest => registeredBeforeConnect h rest

/-! ## static/app.js under the browser event loop -/

namespace StaticApp

/-- What the event loop delivers: a click on either button, or the settling of
the fetch of one suspended call handler, given with the way the constructor call
of the resumed handler ends. -/
inductive Event where
  | call : Event
  | hangup : Event
  | fetchDone (o : FetchOutcome) (c : ConstructorOutcome) : Event

/-- The page between two events: the module state, the number of call handlers
suspended inside `initDevice`, the effects so far and the rejections so far. -/
structure Sys where
  world : World
  pending : Nat
  trace : List Effect
  rejections : List Failure

/-- The page right after the script has loaded.  The load-time diagnostic of
line 1 precedes every handler and is left out of the trace. -/
def Sys.loaded : Sys := ⟨World.fresh, 0, [], []⟩

/-- Adds a finished piece of handler to the page. -/
def Sys.record (s : Sys) (pending : Nat) (r : Run) : Sys :=
  ⟨r.world, pending, s.trace ++ r.trace,
    match r.result with
    | .error e => s.rejections ++ [e]
    | .ok _ => s.rejections⟩

/-- One event.  A call click with `device` unset runs `initDevice` up to its
await and suspends; with `device` set it connects.  A settled fetch resumes one
suspended handler, which does not test `device` again. -/
def step (s : Sys) (e : Event) : Option Sys :=
  match e with
  | .call =>
    match s.world.device with
    | none => some ⟨s.world, s.pending + 1, s.trace ++ initDeviceBegin, s.rejections⟩
    | some _ => some (s.record s.pending (deviceConnect s.world))
  | .hangup => some (s.record s.pending (hangupBtnOnclick s.world))
  | .fetchDone o c =>
    match s.pending with
    | 0 => none
    | n + 1 => some (s.record n (callBtnOnclickResume c o s.world))

/-- A sequence of events; `none` when a fetch settles that nobody awaits. -/
def run (s : Sys) : List Event → Option Sys
  | [] => some s
  | e :: es => (step s e).bind (fun s1 => run s1 es)

/-- No call click arrives while a call handler is suspended at its await. -/
def noOverlap (s : Sys) : List Event → Bool
  | [] => true
  | e :: es =>
    (match e with
      | .call => s.pending == 0
      | _ => true) &&
    (match step s e with
      | none => true
      | some s1 => noOverlap s1 es)

/-- The three shapes of a page on which call clicks never overlapped a pending
fetch: nothing started (every handler that fetched so far ended in a rejection),
one handler suspended, or one handle constructed. -/
def Orderly (s : Sys) : Prop :=
  (s.world.device = none ∧ s.pending = 0 ∧ constructed s.trace = [] ∧
      (fetches s.trace).length = s.rejections.length) ∨
  (s.world.device = none ∧ s.pending = 1 ∧ constructed s.trace = [] ∧
      (fetches s.trace).length = s.rejections.length + 1) ∨
  (s.world.device ≠ none ∧ s.pending = 0 ∧ (constructed s.trace).length = 1 ∧
      (fetches s.trace).length = s.rejections.length + 1)

end StaticApp

/-! ## Theorems -/

/-- The body used in the examples: the JSON object with the one field
token = "tok-123". -/
def tokBody : JSVal := .obj [("token", .str "tok-123")]

/-- C1 (P1, idempotent init).  For the two click-handler scripts, from a state
without a handle and with a fetch whose body admits the token read, two call
clicks in succession (the second after the first has completed, no hangup in
between, whatever a second fetch would give) both complete, and the joint trace
holds exactly one fetch, of the url /token, and exactly one construction. -/
theorem C1_idempotent_init (v : Variant) (w : World) (data tok : JSVal) (o2 : FetchOutcome)
    (hv : v = Variant.app ∨ v = Variant.staticApp)
    (hw : w.device = none)
    (hfetch : getProp data "token" = Except.ok tok) :
    (start v (FetchOutcome.body data) w).result = Except.ok () ∧
    (start v o2 (start v (FetchOutcome.body data) w).world).result = Except.ok () ∧
    fetches ((start v (FetchOutcome.body data) w).trace ++
      (start v o2 (start v (FetchOutcome.body data) w).world).trace) = ["/token"] ∧
    constructed ((start v (FetchOutcome.body data) w).trace ++
      (start v o2 (start v (FetchOutcome.body data) w).world).trace) = [w.allocated] := by
  obtain ⟨dev, n⟩ := w
  simp only at hw
  subst hw
  rcases hv with rfl | rfl <;>
    simp [start, startWith, App.callOnclick, App.callOnclickResume, App.initResume, App.initBegin,
      App.observers, StaticApp.callBtnOnclick, StaticApp.callBtnOnclickResume,
      StaticApp.initDeviceResume, StaticApp.initDeviceBegin, StaticApp.observers,
      withToken, hfetch, newDevice, deviceConnect, Run.andThen, Run.after, fetches, constructed]

/-- Witness of C1: static/app.js, freshly loaded page, body with token "tok-123",
second fetch assumed to reject. -/
theorem C1_idempotent_init_witness :
    (start Variant.staticApp (FetchOutcome.body tokBody) World.fresh).result = Except.ok () ∧
    (start Variant.staticApp FetchOutcome.networkReject
      (start Variant.staticApp (FetchOutcome.body tokBody) World.fresh).world).result
        = Except.ok () ∧
    fetches ((start Variant.staticApp (FetchOutcome.body tokBody) World.fresh).trace ++
      (start Variant.staticApp FetchOutcome.networkReject
        (start Variant.staticApp (FetchOutcome.body tokBody) World.fresh).world).trace)
        = ["/token"] ∧
    constructed ((start Variant.staticApp (FetchOutcome.body tokBody) World.fresh).trace ++
      (start Variant.staticApp FetchOutcome.networkReject
        (start Variant.staticApp (FetchOutcome.body tokBody) World.fresh).world).trace)
        = [World.fresh.allocated] :=
  C1_idempotent_init Variant.staticApp World.fresh tokBody (JSVal.str "tok-123")
    FetchOutcome.networkReject (Or.inr rfl) rfl rfl

/-- C2 (P3, credential round-trip).  In every variant, whenever start fetches
(webrtc.js always, the click handlers when no handle exists) and the body read
gives the string t as its token, the run constructs exactly one handle and its
credential argument is exactly the string t. -/
theorem C2_credential_round_trip (v : Variant) (w : World) (data : JSVal) (t : String)
    (hstate : v = Variant.webrtc ∨ w.device = none)
    (hbody : getProp data "token" = Except.ok (JSVal.str t)) :
    fetches (start v (FetchOutcome.body data) w).trace = ["/token"] ∧
    constructed (start v (FetchOutcome.body data) w).trace = [w.allocated] ∧
    credentials (start v (FetchOutcome.body data) w).trace = [JSVal.str t] := by
  obtain ⟨dev, n⟩ := w
  cases v <;> cases dev <;>
    simp_all [start, startWith, App.callOnclick, App.callOnclickResume, App.initResume, App.initBegin,
      App.observers, StaticApp.callBtnOnclick, StaticApp.callBtnOnclickResume,
      StaticApp.initDeviceResume, StaticApp.initDeviceBegin, StaticApp.observers,
      Webrtc.startCall, Webrtc.startCallResume, Webrtc.startCallBegin, Webrtc.observers,
      withToken, newDevice, deviceConnect, Run.andThen, Run.after, fetches, constructed,
      credentials]

/-- Witness of C2: the body with token "tok-123" gives the credential "tok-123",
here for webrtc.js on a freshly loaded page. -/
theorem C2_credential_round_trip_witness :
    fetches (start Variant.webrtc (FetchOutcome.body tokBody) World.fresh).trace = ["/token"] ∧
    constructed (start Variant.webrtc (FetchOutcome.body tokBody) World.fresh).trace
      = [World.fresh.allocated] ∧
    credentials (start Variant.webrtc (FetchOutcome.body tokBody) World.fresh).trace
      = [JSVal.str "tok-123"] :=
  C2_credential_round_trip Variant.webrtc World.fresh tokBody "tok-123" (Or.inl rfl) rfl

/-- C4 (P2, safe early hangup).  In every variant the end trigger on a state
without a handle completes without throwing, performs no effect at all (so no
disconnect of any kind) and leaves the state as it was. -/
theorem C4_safe_early_hangup (v : Variant) (w : World) (hw : w.device = none) :
    (endTrigger v w).result = Except.ok () ∧
    (endTrigger v w).trace = [] ∧
    (endTrigger v w).world = w := by
  obtain ⟨dev, n⟩ := w
  simp only at hw
  subst hw
  cases v <;> simp [endTrigger, App.hangupOnclick, StaticApp.hangupBtnOnclick, Webrtc.endCall]

/-- Witness of C4: end on the freshly loaded page of webrtc.js. -/
theorem C4_safe_early_hangup_witness :
    (endTrigger Variant.webrtc World.fresh).result = Except.ok () ∧
    (endTrigger Variant.webrtc World.fresh).trace = [] ∧
    (endTrigger Variant.webrtc World.fresh).world = World.fresh :=
  C4_safe_early_hangup Variant.webrtc World.fresh rfl

/-- C5 (P5, disconnect-all and no way back).  In every variant the end trigger on
a state holding the handle h completes, issues exactly one disconnectAll, on h,
issues no fetch, no construction and no connect, and leaves the state, so also
the handle reference h, as it was. -/
theorem C5_end_disconnects_all (v : Variant) (w : World) (h : Handle)
    (hw : w.device = some h) :
    (endTrigger v w).result = Except.ok () ∧
    disconnects (endTrigger v w).trace = [h] ∧
    fetches (endTrigger v w).trace = [] ∧
    constructed (endTrigger v w).trace = [] ∧
    connects (endTrigger v w).trace = [] ∧
    (endTrigger v w).world = w ∧
    (endTrigger v w).world.device = some h := by
  obtain ⟨dev, n⟩ := w
  simp only at hw
  subst hw
  cases v <;>
    simp [endTrigger, App.hangupOnclick, StaticApp.hangupBtnOnclick, Webrtc.endCall,
      disconnects, fetches, constructed, connects]

/-- Witness of C5: the state reached by a successful start of static/app.js on
the freshly loaded page, which holds handle 0. -/
theorem C5_end_disconnects_all_witness :
    (endTrigger Variant.staticApp
      (start Variant.staticApp (FetchOutcome.body tokBody) World.fresh).world).result
        = Except.ok () ∧
    disconnects (endTrigger Variant.staticApp
      (start Variant.staticApp (FetchOutcome.body tokBody) World.fresh).world).trace = [0] ∧
    fetches (endTrigger Variant.staticApp
      (start Variant.staticApp (FetchOutcome.body tokBody) World.fresh).world).trace = [] ∧
    constructed (endTrigger Variant.staticApp
      (start Variant.staticApp (FetchOutcome.body tokBody) World.fresh).world).trace = [] ∧
    connects (endTrigger Variant.staticApp
      (start Variant.staticApp (FetchOutcome.body tokBody) World.fresh).world).trace = [] ∧
    (endTrigger Variant.staticApp
      (start Variant.staticApp (FetchOutcome.body tokBody) World.fresh).world).world
        = (start Variant.staticApp (FetchOutcome.body tokBody) World.fresh).world ∧
    (endTrigger Variant.staticApp
      (start Variant.staticApp (FetchOutcome.body tokBody) World.fresh).world).world.device
        = some 0 :=
  C5_end_disconnects_all Variant.staticApp
    (start Variant.staticApp (FetchOutcome.body tokBody) World.fresh).world 0 rfl

/-- C7 (credential fetch failure aborts start).  In every variant, if the fetch
rejects or the parse of the body rejects during a start from a state without a
handle, the start ends with that rejection, nothing is constructed, no observer is
registered, no connect is issued and the state is as before, without a handle. -/
theorem C7_fetch_failure_aborts (v : Variant) (w : World) (o : FetchOutcome)
    (hw : w.device = none)
    (ho : o = FetchOutcome.networkReject ∨ o = FetchOutcome.parseReject) :
    (∃ e, (start v o w).result = Except.error e) ∧
    constructed (start v o w).trace = [] ∧
    registrations (start v o w).trace = [] ∧
    connects (start v o w).trace = [] ∧
    (start v o w).world = w ∧
    (start v o w).world.device = none := by
  obtain ⟨dev, n⟩ := w
  simp only at hw
  subst hw
  rcases ho with rfl | rfl <;> cases v <;>
    simp [start, startWith, App.callOnclick, App.callOnclickResume, App.initResume, App.initBegin,
      StaticApp.callBtnOnclick, StaticApp.callBtnOnclickResume,
      StaticApp.initDeviceResume, StaticApp.initDeviceBegin,
      Webrtc.startCall, Webrtc.startCallResume, Webrtc.startCallBegin,
      withToken, Run.andThen, Run.after, constructed, registrations, connects]

/-- Witness of C7: a rejected parse in app.js on the freshly loaded page. -/
theorem C7_fetch_failure_aborts_witness :
    (∃ e, (start Variant.app FetchOutcome.parseReject World.fresh).result = Except.error e) ∧
    constructed (start Variant.app FetchOutcome.parseReject World.fresh).trace = [] ∧
    registrations (start Variant.app FetchOutcome.parseReject World.fresh).trace = [] ∧
    connects (start Variant.app FetchOutcome.parseReject World.fresh).trace = [] ∧
    (start Variant.app FetchOutcome.parseReject World.fresh).world = World.fresh ∧
    (start Variant.app FetchOutcome.parseReject World.fresh).world.device = none :=
  C7_fetch_failure_aborts Variant.app World.fresh FetchOutcome.parseReject rfl (Or.inr rfl)

/-- C3 (P4), the claim fails: with the body of an empty object, static/app.js
on the freshly loaded page reads undefined as the token and, without any check,
calls the constructor with it.  The constructor call is in the trace whichever
way it ends.  If it returns, a handle is constructed, connect is issued on it and
the state holds it.  If it throws, the start fails, but with the error of the
constructor, raised after the credential was handed over, not with a failure of
the credential fetch.  Likewise app.js with a body whose token field is the
number 7 hands 7 to the constructor, and when that returns the handle is stored
and connected. -/
theorem C3_malformed_payload_counterexample :
    getProp (JSVal.obj []) "token" = Except.ok JSVal.undefined ∧
    (constructorCalls (startWith ConstructorOutcome.returns Variant.staticApp
        (FetchOutcome.body (JSVal.obj [])) World.fresh).trace = [JSVal.undefined] ∧
      constructed (startWith ConstructorOutcome.returns Variant.staticApp
        (FetchOutcome.body (JSVal.obj [])) World.fresh).trace = [0] ∧
      connects (startWith ConstructorOutcome.returns Variant.staticApp
        (FetchOutcome.body (JSVal.obj [])) World.fresh).trace = [0] ∧
      (startWith ConstructorOutcome.returns Variant.staticApp
        (FetchOutcome.body (JSVal.obj [])) World.fresh).world.device = some 0) ∧
    (constructorCalls (startWith ConstructorOutcome.throws Variant.staticApp
        (FetchOutcome.body (JSVal.obj [])) World.fresh).trace = [JSVal.undefined] ∧
      (startWith ConstructorOutcome.throws Variant.staticApp
        (FetchOutcome.body (JSVal.obj [])) World.fresh).result
        = Except.error Failure.constructorThrew) ∧
    (credentials (startWith ConstructorOutcome.returns Variant.app
        (FetchOutcome.body (JSVal.obj [("token", JSVal.num 7)])) World.fresh).trace
        = [JSVal.num 7] ∧
      connects (startWith ConstructorOutcome.returns Variant.app
        (FetchOutcome.body (JSVal.obj [("token", JSVal.num 7)])) World.fresh).trace = [0] ∧
      (startWith ConstructorOutcome.returns Variant.app
        (FetchOutcome.body (JSVal.obj [("token", JSVal.num 7)])) World.fresh).world.device
        = some 0) := by
  refine ⟨rfl, ⟨rfl, rfl, rfl, rfl⟩, ⟨rfl, rfl⟩, rfl, rfl, rfl⟩

/-- C3 (P4) as amended.  No variant checks the payload.  On a start from a state
without a handle, if the token read of the body gives a value tok that is not a
string (undefined when the field is missing), the script fetches once and calls
the constructor exactly once, with tok as the credential argument.  The
constructor decides the rest.  If it throws, the start fails with that error, no
handle is constructed, no observer is registered, no connect is issued and the
state is as before, without a handle.  If it returns, that one handle is
constructed with tok, connect is issued on it and the state holds it. -/
theorem C3_malformed_payload_is_passed_on (c : ConstructorOutcome) (v : Variant) (w : World)
    (data tok : JSVal)
    (hw : w.device = none)
    (hbody : getProp data "token" = Except.ok tok)
    (_hmalformed : ∀ t : String, tok ≠ JSVal.str t) :
    fetches (startWith c v (FetchOutcome.body data) w).trace = ["/token"] ∧
    constructorCalls (startWith c v (FetchOutcome.body data) w).trace = [tok] ∧
    (match c with
      | ConstructorOutcome.throws =>
        (startWith c v (FetchOutcome.body data) w).result
          = Except.error Failure.constructorThrew ∧
        constructed (startWith c v (FetchOutcome.body data) w).trace = [] ∧
        registrations (startWith c v (FetchOutcome.body data) w).trace = [] ∧
        connects (startWith c v (FetchOutcome.body data) w).trace = [] ∧
        (startWith c v (FetchOutcome.body data) w).world = w
      | ConstructorOutcome.returns =>
        constructed (startWith c v (FetchOutcome.body data) w).trace = [w.allocated] ∧
        credentials (startWith c v (FetchOutcome.body data) w).trace = [tok] ∧
        connects (startWith c v (FetchOutcome.body data) w).trace = [w.allocated] ∧
        (startWith c v (FetchOutcome.body data) w).world.device = some w.allocated) := by
  obtain ⟨dev, n⟩ := w
  simp only at hw
  subst hw
  cases c <;> cases v <;>
    simp [startWith, App.callOnclick, App.callOnclickResume, App.initResume, App.initBegin,
      App.observers, StaticApp.callBtnOnclick, StaticApp.callBtnOnclickResume,
      StaticApp.initDeviceResume, StaticApp.initDeviceBegin, StaticApp.observers,
      Webrtc.startCall, Webrtc.startCallResume, Webrtc.startCallBegin, Webrtc.observers,
      withToken, hbody, newDevice, deviceConnect, Run.andThen, Run.after, fetches,
      constructorCalls, constructed, credentials, registrations, connects]

/-- Witness of C3 as amended: webrtc.js, freshly loaded page, body of an empty
object, constructor that throws. -/
theorem C3_malformed_payload_is_passed_on_witness :
    fetches (startWith ConstructorOutcome.throws Variant.webrtc
      (FetchOutcome.body (JSVal.obj [])) World.fresh).trace = ["/token"] ∧
    constructorCalls (startWith ConstructorOutcome.throws Variant.webrtc
      (FetchOutcome.body (JSVal.obj [])) World.fresh).trace = [JSVal.undefined] ∧
    (startWith ConstructorOutcome.throws Variant.webrtc
      (FetchOutcome.body (JSVal.obj [])) World.fresh).result
        = Except.error Failure.constructorThrew ∧
    constructed (startWith ConstructorOutcome.throws Variant.webrtc
      (FetchOutcome.body (JSVal.obj [])) World.fresh).trace = [] ∧
    registrations (startWith ConstructorOutcome.throws Variant.webrtc
      (FetchOutcome.body (JSVal.obj [])) World.fresh).trace = [] ∧
    connects (startWith ConstructorOutcome.throws Variant.webrtc
      (FetchOutcome.body (JSVal.obj [])) World.fresh).trace = [] ∧
    (startWith ConstructorOutcome.throws Variant.webrtc
      (FetchOutcome.body (JSVal.obj [])) World.fresh).world = World.fresh :=
  C3_malformed_payload_is_passed_on ConstructorOutcome.throws Variant.webrtc World.fresh
    (JSVal.obj []) JSVal.undefined rfl rfl (fun _ hEq => nomatch hEq)

/-- C6, the code at the failing input: in webrtc.js a first startCall on the
freshly loaded page leaves handle 0; a second startCall with a successful fetch
fetches again, constructs a second handle, 1, and replaces the handle reference
by it, after which endCall disconnects handle 1 only.  The credential is a proper
string and both constructor calls return. -/
theorem C6_second_startCall_constructs_again :
    (Webrtc.startCall ConstructorOutcome.returns (FetchOutcome.body tokBody)
      World.fresh).world.device = some 0 ∧
    fetches (Webrtc.startCall ConstructorOutcome.returns (FetchOutcome.body tokBody)
      (Webrtc.startCall ConstructorOutcome.returns (FetchOutcome.body tokBody)
        World.fresh).world).trace = ["/token"] ∧
    constructed (Webrtc.startCall ConstructorOutcome.returns (FetchOutcome.body tokBody)
      (Webrtc.startCall ConstructorOutcome.returns (FetchOutcome.body tokBody)
        World.fresh).world).trace = [1] ∧
    (Webrtc.startCall ConstructorOutcome.returns (FetchOutcome.body tokBody)
      (Webrtc.startCall ConstructorOutcome.returns (FetchOutcome.body tokBody)
        World.fresh).world).world.device = some 1 ∧
    disconnects (Webrtc.endCall
      (Webrtc.startCall ConstructorOutcome.returns (FetchOutcome.body tokBody)
        (Webrtc.startCall ConstructorOutcome.returns (FetchOutcome.body tokBody)
          World.fresh).world).world).trace = [1] := by
  refine ⟨rfl, rfl, rfl, rfl, rfl⟩

/-- A start run constructs with no options at all or once with the options of its
variant. -/
theorem optionsUsed_start (v : Variant) (o : FetchOutcome) (w : World) :
    optionsUsed (start v o w).trace = [] ∨
    optionsUsed (start v o w).trace = [deviceOptions v] := by
  obtain ⟨dev, n⟩ := w
  cases v <;> cases dev <;> rcases o with _ | _ | data <;>
    first
      | (cases hg : getProp data "token" <;>
          simp [start, startWith, App.callOnclick, App.callOnclickResume, App.initResume, App.initBegin,
            App.observers, StaticApp.callBtnOnclick, StaticApp.callBtnOnclickResume,
            StaticApp.initDeviceResume, StaticApp.initDeviceBegin, StaticApp.observers,
            Webrtc.startCall, Webrtc.startCallResume, Webrtc.startCallBegin, Webrtc.observers,
            withToken, hg, newDevice, deviceConnect, Run.andThen, Run.after, optionsUsed,
            deviceOptions])
      | simp [start, startWith, App.callOnclick, App.callOnclickResume, App.initResume, App.initBegin,
          StaticApp.callBtnOnclick, StaticApp.callBtnOnclickResume,
          StaticApp.initDeviceResume, StaticApp.initDeviceBegin,
          Webrtc.startCall, Webrtc.startCallResume, Webrtc.startCallBegin,
          withToken, deviceConnect, Run.andThen, Run.after, optionsUsed]

/-- C8, the claim fails: the options webrtc.js constructs its device with have
no fakeLocalDTMF key. -/
theorem C8_fixed_configuration_counterexample :
    (optionsUsed (start Variant.webrtc (FetchOutcome.body tokBody) World.fresh).trace).map
      (fun opts => (opts.codecPreferences, opts.enableRingingState, opts.fakeLocalDTMF))
      = [(["opus", "pcmu"], some true, none)] := by
  rfl

/-- C8 as amended.  In every variant, every construction performed by start
passes options that depend on the variant only, not on the credential, the fetch
or the state: the codec preference list is opus then pcmu and enableRingingState
is true; fakeLocalDTMF is true in the two app.js scripts and is not set in
webrtc.js. -/
theorem C8_fixed_configuration (v : Variant) (o : FetchOutcome) (w : World)
    (opts : DeviceOptions) (hmem : opts ∈ optionsUsed (start v o w).trace) :
    opts = deviceOptions v ∧
    opts.codecPreferences = ["opus", "pcmu"] ∧
    opts.enableRingingState = some true ∧
    opts.fakeLocalDTMF =
      (match v with
        | Variant.app => some true
        | Variant.staticApp => some true
        | Variant.webrtc => none) := by
  have key : opts = deviceOptions v := by
    rcases optionsUsed_start v o w with hnone | hone
    · rw [hnone] at hmem
      cases hmem
    · rw [hone] at hmem
      simpa using hmem
  subst key
  cases v <;> simp [deviceOptions, App.deviceOptions, StaticApp.deviceOptions,
    Webrtc.deviceOptions]

/-- Witness of C8 as amended: the options of the construction made by static/app.js
on the freshly loaded page. -/
theorem C8_fixed_configuration_witness :
    StaticApp.deviceOptions = deviceOptions Variant.staticApp ∧
    StaticApp.deviceOptions.codecPreferences = ["opus", "pcmu"] ∧
    StaticApp.deviceOptions.enableRingingState = some true ∧
    StaticApp.deviceOptions.fakeLocalDTMF = some true :=
  C8_fixed_configuration Variant.staticApp (FetchOutcome.body tokBody) World.fresh
    StaticApp.deviceOptions (by simp [optionsUsed, start, startWith, StaticApp.callBtnOnclick,
      StaticApp.callBtnOnclickResume, StaticApp.initDeviceResume, StaticApp.initDeviceBegin,
      StaticApp.observers, withToken, getProp, tokBody, newDevice, deviceConnect,
      Run.andThen, Run.after, World.fresh])

/-- C9, the claim fails: app.js registers two observers only, for ready and for
error, before it connects; none for connect or disconnect. -/
theorem C9_observer_registration_counterexample :
    constructed (start Variant.app (FetchOutcome.body tokBody) World.fresh).trace = [0] ∧
    registrations (start Variant.app (FetchOutcome.body tokBody) World.fresh).trace
      = [(0, "ready"), (0, "error")] ∧
    registeredBeforeConnect 0 (start Variant.app (FetchOutcome.body tokBody) World.fresh).trace
      = ["ready", "error"] := by
  refine ⟨rfl, rfl, rfl⟩

/-- C9 as amended.  In every variant, a start that fetches a body admitting the
token read constructs one handle and then, before the one connect it issues on
that handle, registers observers on that handle and on no other: in static/app.js
and webrtc.js exactly four, one for each of ready, error, connect and disconnect;
in app.js exactly two, for ready and error.  Calling any registered observer
leaves the state, so also the handle reference, as it was, and performs one
console record and nothing else. -/
theorem C9_observer_registration (v : Variant) (w : World) (data tok : JSVal)
    (hstate : v = Variant.webrtc ∨ w.device = none)
    (hbody : getProp data "token" = Except.ok tok) :
    constructed (start v (FetchOutcome.body data) w).trace = [w.allocated] ∧
    connects (start v (FetchOutcome.body data) w).trace = [w.allocated] ∧
    registeredBeforeConnect w.allocated (start v (FetchOutcome.body data) w).trace =
      (match v with
        | Variant.app => ["ready", "error"]
        | Variant.staticApp => ["ready", "error", "connect", "disconnect"]
        | Variant.webrtc => ["ready", "connect", "disconnect", "error"]) ∧
    registrations (start v (FetchOutcome.body data) w).trace =
      (registeredBeforeConnect w.allocated (start v (FetchOutcome.body data) w).trace).map
        (fun ev => (w.allocated, ev)) ∧
    (∀ (h : Handle) (ev : String) (obs : Observer),
      Effect.on h ev obs ∈ (start v (FetchOutcome.body data) w).trace →
      ∀ (arg : JSVal) (w2 : World), (obs.invoke arg w2).1 = w2 ∧
        ∃ level message args, (obs.invoke arg w2).2 = [Effect.log level message args]) := by
  obtain ⟨dev, n⟩ := w
  refine ⟨?_, ?_, ?_, ?_, fun _ _ obs _ _ _ => ⟨rfl, obs.level, obs.message, _, rfl⟩⟩ <;>
    cases v <;> cases dev <;> simp at hstate <;>
    simp [hbody, start, startWith, App.callOnclick, App.callOnclickResume, App.initResume, App.initBegin,
      App.observers, StaticApp.callBtnOnclick, StaticApp.callBtnOnclickResume,
      StaticApp.initDeviceResume, StaticApp.initDeviceBegin, StaticApp.observers,
      Webrtc.startCall, Webrtc.startCallResume, Webrtc.startCallBegin, Webrtc.observers,
      withToken, newDevice, deviceConnect, Run.andThen, Run.after, constructed, connects,
      registrations, registeredBeforeConnect]

/-- Witness of C9 as amended: static/app.js on the freshly loaded page. -/
theorem C9_observer_registration_witness :
    constructed (start Variant.staticApp (FetchOutcome.body tokBody) World.fresh).trace
      = [World.fresh.allocated] ∧
    connects (start Variant.staticApp (FetchOutcome.body tokBody) World.fresh).trace
      = [World.fresh.allocated] ∧
    registeredBeforeConnect World.fresh.allocated
      (start Variant.staticApp (FetchOutcome.body tokBody) World.fresh).trace
      = ["ready", "error", "connect", "disconnect"] ∧
    registrations (start Variant.staticApp (FetchOutcome.body tokBody) World.fresh).trace =
      (registeredBeforeConnect World.fresh.allocated
        (start Variant.staticApp (FetchOutcome.body tokBody) World.fresh).trace).map
        (fun ev => (World.fresh.allocated, ev)) ∧
    (∀ (h : Handle) (ev : String) (obs : Observer),
      Effect.on h ev obs ∈ (start Variant.staticApp (FetchOutcome.body tokBody) World.fresh).trace →
      ∀ (arg : JSVal) (w2 : World), (obs.invoke arg w2).1 = w2 ∧
        ∃ level message args, (obs.invoke arg w2).2 = [Effect.log level message args]) :=
  C9_observer_registration Variant.staticApp World.fresh tokBody (JSVal.str "tok-123")
    (Or.inr rfl) rfl

/-- The event loop model agrees with the run-to-completion handler: a call click
on a page without a handle and nothing suspended, followed by the settling of
its fetch, performs the effects of `callBtnOnclick` and leaves its state. -/
theorem StaticApp.run_call_then_settle (w : World) (o : FetchOutcome) (c : ConstructorOutcome)
    (hw : w.device = none) :
    (StaticApp.run ⟨w, 0, [], []⟩ [StaticApp.Event.call, StaticApp.Event.fetchDone o c]).map
      (fun s => (s.world, s.pending, s.trace))
      = some ((StaticApp.callBtnOnclick c o w).world, 0,
          (StaticApp.callBtnOnclick c o w).trace) := by
  obtain ⟨dev, n⟩ := w
  simp only at hw
  subst hw
  simp [StaticApp.run, StaticApp.step, StaticApp.Sys.record, StaticApp.callBtnOnclick, Run.after]

/-! ### static/app.js without overlapping call clicks -/

/-- The fetches of a joined trace. -/
theorem fetches_append (a b : List Effect) : fetches (a ++ b) = fetches a ++ fetches b := by
  simp [fetches]

/-- The constructions of a joined trace. -/
theorem constructed_append (a b : List Effect) :
    constructed (a ++ b) = constructed a ++ constructed b := by
  simp [constructed]

/-- A resumed call handler either rejects, with no handle constructed and the
state untouched, or constructs one handle, stores it and connects; it never
fetches. -/
theorem StaticApp.callBtnOnclickResume_cases (c : ConstructorOutcome) (o : FetchOutcome)
    (w : World) :
    (∃ e, (StaticApp.callBtnOnclickResume c o w).result = Except.error e ∧
      (StaticApp.callBtnOnclickResume c o w).world = w ∧
      constructed (StaticApp.callBtnOnclickResume c o w).trace = [] ∧
      fetches (StaticApp.callBtnOnclickResume c o w).trace = []) ∨
    ((StaticApp.callBtnOnclickResume c o w).result = Except.ok () ∧
      (StaticApp.callBtnOnclickResume c o w).world.device = some w.allocated ∧
      constructed (StaticApp.callBtnOnclickResume c o w).trace = [w.allocated] ∧
      fetches (StaticApp.callBtnOnclickResume c o w).trace = []) := by
  rcases o with _ | _ | data
  · left
    exact ⟨Failure.fetchRejected, rfl, rfl, rfl, rfl⟩
  · left
    exact ⟨Failure.jsonRejected, rfl, rfl, rfl, rfl⟩
  · cases hg : getProp data "token" with
    | error e =>
      left
      refine ⟨e, ?_, ?_, ?_, ?_⟩ <;>
        simp [StaticApp.callBtnOnclickResume, StaticApp.initDeviceResume, withToken, hg,
          Run.andThen, constructed, fetches]
    | ok tok =>
      cases c with
      | throws =>
        left
        refine ⟨Failure.constructorThrew, ?_, ?_, ?_, ?_⟩ <;>
          simp [StaticApp.callBtnOnclickResume, StaticApp.initDeviceResume, withToken, hg,
            Run.andThen, newDevice, constructed, fetches]
      | returns =>
        right
        simp [StaticApp.callBtnOnclickResume, StaticApp.initDeviceResume, withToken, hg,
          Run.andThen, newDevice, deviceConnect, StaticApp.observers, constructed, fetches]

/-- One event that is not an overlapping call click keeps the page orderly. -/
theorem StaticApp.orderly_step (s s1 : StaticApp.Sys) (e : StaticApp.Event)
    (hs : StaticApp.Orderly s)
    (hcall : e = StaticApp.Event.call → s.pending = 0)
    (hstep : StaticApp.step s e = some s1) : StaticApp.Orderly s1 := by
  obtain ⟨⟨dev, n⟩, pending, trace, rejections⟩ := s
  cases e with
  | call =>
    have hp : pending = 0 := hcall rfl
    subst hp
    cases dev with
    | none =>
      simp only [StaticApp.step, Option.some.injEq] at hstep
      subst hstep
      rcases hs with ⟨_, _, hc, hf⟩ | ⟨_, hp, _, _⟩ | ⟨hd, _, _, _⟩
      · right; left
        simp only at hc hf
        have hb1 : constructed StaticApp.initDeviceBegin = [] := rfl
        have hb2 : fetches StaticApp.initDeviceBegin = ["/token"] := rfl
        simp [fetches_append, constructed_append, hc, hf, hb1, hb2]
      · simp at hp
      · simp at hd
    | some h =>
      simp only [StaticApp.step, Option.some.injEq] at hstep
      subst hstep
      rcases hs with ⟨hd, _, _, _⟩ | ⟨hd, _, _, _⟩ | ⟨_, _, hc, hf⟩
      · simp at hd
      · simp at hd
      · right; right
        simp only at hc hf
        have hb1 : constructed [Effect.connect h] = [] := rfl
        have hb2 : fetches [Effect.connect h] = [] := rfl
        simp [StaticApp.Sys.record, deviceConnect, fetches_append, constructed_append, hc, hf,
          hb1, hb2]
  | hangup =>
    simp only [StaticApp.step, Option.some.injEq] at hstep
    subst hstep
    cases dev with
    | none =>
      rcases hs with ⟨_, hp, hc, hf⟩ | ⟨_, hp, hc, hf⟩ | ⟨hd, _, _, _⟩
      · left
        simp only at hp hc hf
        simp [StaticApp.Sys.record, StaticApp.hangupBtnOnclick, hp, hc, hf]
      · right; left
        simp only at hp hc hf
        simp [StaticApp.Sys.record, StaticApp.hangupBtnOnclick, hp, hc, hf]
      · simp at hd
    | some h =>
      rcases hs with ⟨hd, _, _, _⟩ | ⟨hd, _, _, _⟩ | ⟨_, hp, hc, hf⟩
      · simp at hd
      · simp at hd
      · right; right
        simp only at hp hc hf
        have hb1 : constructed [Effect.disconnectAll h] = [] := rfl
        have hb2 : fetches [Effect.disconnectAll h] = [] := rfl
        simp [StaticApp.Sys.record, StaticApp.hangupBtnOnclick, fetches_append,
          constructed_append, hp, hc, hf, hb1, hb2]
  | fetchDone o c =>
    rcases hs with ⟨_, hp, _, _⟩ | ⟨hd, hp, hc, hf⟩ | ⟨_, hp, _, _⟩
    · simp only at hp
      subst hp
      simp [StaticApp.step] at hstep
    · simp only at hd hp hc hf
      subst hp
      subst hd
      simp only [StaticApp.step, Option.some.injEq] at hstep
      subst hstep
      rcases StaticApp.callBtnOnclickResume_cases c o ⟨none, n⟩ with
        ⟨e, hr, hw, hcons, hfet⟩ | ⟨hr, hw, hcons, hfet⟩
      · left
        simp [StaticApp.Sys.record, hr, hw, hcons, hfet, hc, hf, fetches_append,
          constructed_append]
      · right; right
        simp [StaticApp.Sys.record, hr, hw, hcons, hfet, hc, hf, fetches_append,
          constructed_append]
    · simp only at hp
      subst hp
      simp [StaticApp.step] at hstep

/-- A run without overlapping call clicks keeps the page orderly. -/
theorem StaticApp.orderly_run (es : List StaticApp.Event) :
    ∀ (s s1 : StaticApp.Sys), StaticApp.Orderly s → StaticApp.noOverlap s es = true →
      StaticApp.run s es = some s1 → StaticApp.Orderly s1 := by
  induction es with
  | nil =>
    intro s s1 hs _ hrun
    simp only [StaticApp.run, Option.some.injEq] at hrun
    subst hrun
    exact hs
  | cons e es ih =>
    intro s s1 hs hno hrun
    cases hstep : StaticApp.step s e with
    | none => simp [StaticApp.run, hstep] at hrun
    | some s2 =>
      simp only [StaticApp.run, hstep, Option.some_bind] at hrun
      simp only [StaticApp.noOverlap, hstep, Bool.and_eq_true] at hno
      refine ih s2 s1 (StaticApp.orderly_step s s2 e hs ?_ hstep) hno.2 hrun
      intro he
      subst he
      simpa using hno.1

/-- Where the once-only guard of static/app.js does hold: on every run from the
loaded page in which no call click arrives while a fetch is pending, at most one
handle is constructed, and every handler that fetched, but the last one, has
ended in a rejection. -/
theorem StaticApp.sequential_init_once (es : List StaticApp.Event) (s : StaticApp.Sys)
    (hrun : StaticApp.run StaticApp.Sys.loaded es = some s)
    (hno : StaticApp.noOverlap StaticApp.Sys.loaded es = true) :
    (constructed s.trace).length ≤ 1 ∧
    (fetches s.trace).length ≤ s.rejections.length + 1 := by
  have hloaded : StaticApp.Orderly StaticApp.Sys.loaded := by
    left
    exact ⟨rfl, rfl, rfl, rfl⟩
  rcases StaticApp.orderly_run es StaticApp.Sys.loaded s hloaded hno hrun with
    ⟨_, _, hc, hf⟩ | ⟨_, _, hc, hf⟩ | ⟨_, _, hc, hf⟩
  · simp [hc, hf]
  · simp [hc, hf]
  · simp [hc, hf]

/-- C10, the code at the failing input: on the freshly loaded page of
static/app.js, a second call click that arrives while the fetch of the first is
pending finds `device` unset and fetches too; when the two fetches settle, each
handler constructs a handle.  Two fetches of /token, two constructions (handles
0 and 1), connect on each, and the handle reference ends at handle 1.  The
credential is a proper string and both constructor calls return. -/
theorem C10_second_call_while_fetch_pending :
    (StaticApp.run StaticApp.Sys.loaded
      [StaticApp.Event.call, StaticApp.Event.call,
       StaticApp.Event.fetchDone (FetchOutcome.body tokBody) ConstructorOutcome.returns,
       StaticApp.Event.fetchDone (FetchOutcome.body tokBody) ConstructorOutcome.returns]).map
      (fun s => (fetches s.trace, constructed s.trace, connects s.trace, s.world.device))
      = some (["/token", "/token"], [0, 1], [0, 1], some 1) := by
  rfl

end CallSession
